import Mathlib

/-!
Verification of the gamma-squeeze scanner pipeline (scanner_v4.js and the
V5 variant).  The JavaScript source is shallowly embedded: numbers become
rationals, arrays become lists, fallible network fetches become `Option`
inputs, and each JS function is translated into a Lean definition of the
same name wherever possible.
-/

namespace GammaScanner

/-- JS `Math.round` for nonnegative inputs: round half away from zero,
which for our price inputs is floor of `q + 1/2`. -/
def jsRound (q : ℚ) : ℤ := ⌊q + 1/2⌋

/-- JS `array.slice(-n)`: the last `n` elements (whole list when `n ≥ length`). -/
def takeLast (n : ℕ) (l : List α) : List α := l.drop (l.length - n)

/-- JS `array.slice(-a, -b)` for `a > b`: elements from index `length - a`
(clamped at 0) up to, excluding, index `length - b` (clamped at 0). -/
def jsSliceNegNeg (a b : ℕ) (l : List α) : List α :=
  (l.take (l.length - b)).drop (l.length - a)

/-- JS `Math.max(...list)` on the nonempty lists this program feeds it. -/
def jsMax : List ℚ → ℚ
  | [] => 0
  | a :: t => t.foldl max a

/-- JS `Math.min(...list)` on the nonempty lists this program feeds it. -/
def jsMin : List ℚ → ℚ
  | [] => 0
  | a :: t => t.foldl min a

/-- JS `[...new Set(l)]`: deduplication keeping first occurrences in order. -/
def jsDedup : List ℤ → List ℤ
  | [] => []
  | a :: l => a :: jsDedup (l.filter (fun b => !(b == a)))
termination_by l => l.length
decreasing_by
  simp only [List.length_cons]
  exact Nat.lt_succ_of_le (List.length_filter_le _ _)

/-- One daily OHLCV bar as parsed from a provider time series
(`close`, `high`, `low`, `volume`, `datetime`). -/
structure Bar where
  close : ℚ
  high : ℚ
  low : ℚ
  volume : ℚ
  datetime : ℕ
deriving DecidableEq, Repr

/-- One step of the gap-down search loop of `getHistory` (scanner_v4.js
lines 147-153): track the most negative day-over-day percentage change and
the bar on which it happened. -/
def gapStep (st : ℚ × Option Bar) (p : Bar × Bar) : ℚ × Option Bar :=
  let gap := (p.2.close - p.1.close) / p.1.close * 100
  if gap < st.1 then (gap, some p.2) else st

/-- The gap-down search loop of `getHistory`: fold `gapStep` over all
consecutive bar pairs, starting from `maxGap = 0`, `gapDay = null`. -/
def findGap (values : List Bar) : ℚ × Option Bar :=
  (values.zip values.tail).foldl gapStep (0, none)

/-- `calculateTrendScore` from scanner_v4.js: a 0-100 bullishness score from
moving-average relationships, momentum and higher-high structure. -/
def calculateTrendScore (values : List Bar) : ℚ :=
  if values.length < 50 then 50
  else
    let closes := values.map (·.close)
    let current := closes.getLast?.getD 0
    let ma20 := (takeLast 20 closes).sum / 20
    let ma50 := (takeLast 50 closes).sum / 50
    let s1 : ℚ := 50
    let s2 := if ma20 < current then s1 + 15 else s1 - 10
    let s3 := if ma50 < current then s2 + 15 else s2 - 10
    let s4 := if ma50 < ma20 then s3 + 15
      else if ma50 * (95/100) < ma20 then s3 + 5 else s3 - 15
    let recent10 := (takeLast 10 closes).sum / 10
    let prev10 := (jsSliceNegNeg 20 10 closes).sum / 10
    let momentum := (recent10 - prev10) / prev10 * 100
    let s5 := if 5 < momentum then s4 + 15
      else if 0 < momentum then s4 + 10
      else if -5 < momentum then s4 + 5 else s4 - 10
    let highs := takeLast 20 closes
    let hhCount := ((highs.zip highs.tail).filter (fun p => decide (p.1 < p.2))).length
    let s6 := if 12 < hhCount then s5 + 15
      else if 8 < hhCount then s5 + 10
      else if 5 < hhCount then s5 + 5 else s5 - 10
    let s7 := if 200 ≤ closes.length then
        (if (takeLast 200 closes).sum / 200 < current then s6 + 10 else s6 - 10)
      else s6
    max 0 (min 100 s7)

/-- The record returned by `getHistory` in scanner_v4.js (lines 173-184). -/
structure HistoryV4 where
  gapDown : ℚ
  gapDayTime : ℕ
  daysSinceGap : ℕ
  consolidation : ℚ
  gapFillPct : ℚ
  volumeTrend : ℚ
  currentPrice : ℚ
  gapDayPrice : ℚ
  prevGapDayClose : ℚ
  trendScore : ℚ
deriving DecidableEq, Repr

/-- The analysis body shared by both provider branches of `getHistory`
(scanner_v4.js lines 140-184): gap detection, gap-fill percentage,
consolidation, volume trend, days since gap and trend score.  Returns
`none` when no negative day-over-day change exists (`if (!gapDay) return null`). -/
def analyzeValues (values : List Bar) : Option HistoryV4 :=
  match values.getLast? with
  | none => none
  | some current =>
    let mg := findGap values
    match mg.2 with
    | none => none
    | some gapDay =>
      let filled := (gapDay.close - current.close) / gapDay.close * 100
      let gapFillPct := max 0 (min 100 filled)
      let recent := takeLast 5 values
      let high := jsMax (recent.map (·.high))
      let low := jsMin (recent.map (·.low))
      let consolidation := (high - low) / low * 100
      let vol5 := (recent.map (·.volume)).sum / (recent.length : ℚ)
      let volPrev := ((jsSliceNegNeg 10 5 values).map (·.volume)).sum / 5
      let volumeTrend := if 0 < volPrev then (vol5 - volPrev) / volPrev * 100 else 0
      let gapIndex := values.findIdx (fun v => v.datetime == gapDay.datetime)
      let daysSinceGap := values.length - 1 - gapIndex
      let prevGapDayClose :=
        if gapIndex = 0 then gapDay.close
        else match values[gapIndex - 1]? with
          | some v => if v.close = 0 then gapDay.close else v.close
          | none => gapDay.close
      some {
        gapDown := mg.1
        gapDayTime := gapDay.datetime
        daysSinceGap := daysSinceGap
        consolidation := consolidation
        gapFillPct := gapFillPct
        volumeTrend := volumeTrend
        currentPrice := current.close
        gapDayPrice := gapDay.close
        prevGapDayClose := prevGapDayClose
        trendScore := calculateTrendScore values }

/-- The Alpha Vantage fallback branch of `getHistory` (scanner_v4.js lines
186-251): `none` models a failed or malformed fallback response; a usable
response needs at least 20 dates and analyzes the last 60 bars. -/
def avHistory (fallback : Option (List Bar)) : Option HistoryV4 :=
  match fallback with
  | none => none
  | some dates => if dates.length < 20 then none else analyzeValues (takeLast 60 dates)

/-- `getHistory` from scanner_v4.js: try the primary (Twelve Data) response
first; a thrown error or a payload with fewer than 5 values falls back to
Alpha Vantage.  The primary payload arrives newest-first and is reversed. -/
def getHistory (primary fallback : Option (List Bar)) : Option HistoryV4 :=
  match primary with
  | some raw => if raw.length < 5 then avHistory fallback else analyzeValues raw.reverse
  | none => avHistory fallback

/-- A Twelve Data quote payload (`data` in `getQuote`): the `code` and
`status` fields the code inspects for failure, plus the price fields. -/
structure TDQuote where
  code : Option ℕ
  status : Option String
  symbol : String
  close : ℚ
  previous_close : ℚ
  openPrice : ℚ
  high : ℚ
  low : ℚ
  volume : ℚ
  average_volume : ℚ
deriving DecidableEq, Repr

/-- The quote record `getQuote` returns (scanner_v4.js lines 89-98). -/
structure Quote where
  symbol : String
  price : ℚ
  prevClose : ℚ
  openPrice : ℚ
  high : ℚ
  low : ℚ
  volume : ℚ
  avgVolume : ℚ
deriving DecidableEq, Repr

/-- An Alpha Vantage `Global Quote` payload with its fields parsed. -/
structure AVQuote where
  symbol : String
  price : ℚ
  previousClose : ℚ
  openPrice : ℚ
  high : ℚ
  low : ℚ
  volume : ℚ
deriving DecidableEq, Repr

/-- The primary-failure test of `getQuote` (scanner_v4.js lines 86-87):
`data.code === 400 || data.code === 404` or an error status string. -/
def tdQuoteFails (d : TDQuote) : Bool :=
  d.code == some 400 || d.code == some 404 || d.status == some "error"

/-- Build the quote record from a Twelve Data payload (lines 89-98). -/
def tdToQuote (d : TDQuote) : Quote :=
  { symbol := d.symbol, price := d.close, prevClose := d.previous_close
    openPrice := d.openPrice, high := d.high, low := d.low
    volume := d.volume, avgVolume := d.average_volume }

/-- Build the quote record from an Alpha Vantage payload (lines 105-117);
note `avgVolume` reuses the `volume` field, as in the source. -/
def avToQuote (q : AVQuote) : Quote :=
  { symbol := q.symbol, price := q.price, prevClose := q.previousClose
    openPrice := q.openPrice, high := q.high, low := q.low
    volume := q.volume, avgVolume := q.volume }

/-- The Alpha Vantage fallback branch of `getQuote`: `none` models both a
thrown error and a response with an empty `Global Quote`. -/
def avQuote : Option AVQuote → Option Quote
  | some q => some (avToQuote q)
  | none => none

/-- `getQuote` from scanner_v4.js: Twelve Data first, and on any failure
(thrown error modelled by `none`, or an error code/status) one Alpha
Vantage attempt; `none` when both fail. -/
def getQuote (primary : Option TDQuote) (fallback : Option AVQuote) : Option Quote :=
  match primary with
  | some d => if tdQuoteFails d then avQuote fallback else some (tdToQuote d)
  | none => avQuote fallback

/-- The hardcoded `KNOWN_SHORT` short-interest table of scanner_v4.js. -/
def KNOWN_SHORT : List (String × ℚ) :=
  [("GME", 15.2), ("AMC", 22.1), ("CLOV", 25.4), ("MARA", 28.5), ("RIOT", 31.2),
   ("BTBT", 15.0), ("SOUN", 12.0), ("UPST", 22.0), ("WISH", 18.9), ("RIVN", 5.2),
   ("LCID", 4.8), ("DKNG", 10.2), ("SNAP", 9.1), ("COIN", 14.2), ("HOOD", 6.8),
   ("PLTR", 12.3), ("BB", 4.2), ("NOK", 3.1), ("SOFI", 8.5), ("PATH", 18.5),
   ("LAZR", 8.5), ("STEM", 12.0), ("TXMD", 25.0), ("MRNA", 8.5)]

/-- The hardcoded `KNOWN_FLOAT` float table of scanner_v4.js. -/
def KNOWN_FLOAT : List (String × ℚ) :=
  [("GME", 304000000), ("AMC", 517000000), ("CLOV", 485000000), ("MARA", 89000000),
   ("RIOT", 73000000), ("BTBT", 95000000), ("UPST", 95000000), ("WISH", 580000000),
   ("RIVN", 1730000000), ("LCID", 2150000000), ("PLTR", 2150000000), ("COIN", 212000000),
   ("HOOD", 890000000), ("PATH", 215000000), ("SNAP", 1580000000),
   ("LAZR", 120000000), ("STEM", 145000000), ("TXMD", 85000000)]

/-- `getShortInterest`: table lookup on the uppercased symbol, default 0. -/
def getShortInterest (symbol : String) : ℚ :=
  (KNOWN_SHORT.lookup symbol.toUpper).getD 0

/-- `getFloat`: table lookup on the uppercased symbol, default 500M. -/
def getFloat (symbol : String) : ℚ :=
  (KNOWN_FLOAT.lookup symbol.toUpper).getD 500000000

/-- The `FILTERS` configuration object of scanner_v4.js. -/
structure Filters where
  gapDownMin : ℚ
  gapDownMax : ℚ
  consolidationMax : ℚ
  consolidationMin : ℚ
  gapFillMin : ℚ
  gapFillMax : ℚ
  trendMin : ℚ
  shortInterestMin : ℚ
  floatMax : ℚ
  volumeMin : ℚ
  maxPrice : ℚ
  optionMinPrice : ℚ
  optionMaxPrice : ℚ
  scoreMin : ℚ
deriving DecidableEq, Repr

/-- The concrete `FILTERS` values of scanner_v4.js (lines 43-73). -/
def FILTERS : Filters :=
  { gapDownMin := -10, gapDownMax := -3
    consolidationMax := 20, consolidationMin := 3
    gapFillMin := 0, gapFillMax := 100
    trendMin := 25
    shortInterestMin := 5, floatMax := 1000000000, volumeMin := 1000000
    maxPrice := 40
    optionMinPrice := 0.01, optionMaxPrice := 0.10
    scoreMin := 15 }

/-- The candidate fields read by `calculateScore` in scanner_v4.js. -/
structure CandidateData where
  gapFillPct : ℚ
  daysSinceGap : ℕ
  consolidation : ℚ
  volumeTrend : ℚ
  shortInterest : ℚ
  gapDown : ℚ
  trendScore : ℚ
deriving DecidableEq, Repr

/-- Gap-fill sub-score of `calculateScore` (scanner_v4.js lines 349-354), 0-25. -/
def fillScore (fill : ℚ) : ℚ :=
  if 50 ≤ fill ∧ fill ≤ 80 then 25
  else if 30 ≤ fill ∧ fill ≤ 90 then 20
  else if 20 ≤ fill ∧ fill ≤ 95 then 15
  else if 10 ≤ fill ∧ fill ≤ 100 then 10
  else 0

/-- Days-since-gap sub-score (lines 356-362), 0-15. -/
def daysScore (days : ℕ) : ℚ :=
  if days = 1 then 15
  else if days = 2 then 12
  else if days ≤ 3 then 10
  else if days ≤ 5 then 7
  else if days ≤ 7 then 5
  else 0

/-- Consolidation sub-score (lines 364-369), 0-15. -/
def consScore (cons : ℚ) : ℚ :=
  if cons < 5 then 15
  else if cons < 8 then 12
  else if cons < 10 then 10
  else if cons < 15 then 7
  else 0

/-- Volume-trend sub-score (lines 371-376), 0-15. -/
def volScore (vol : ℚ) : ℚ :=
  if 50 < vol then 15
  else if 20 < vol then 12
  else if 0 < vol then 8
  else if -10 < vol then 5
  else 0

/-- Short-interest sub-score (lines 378-384), 0-15. -/
def siScore (si : ℚ) : ℚ :=
  if 30 < si then 15
  else if 20 < si then 12
  else if 15 < si then 10
  else if 10 < si then 7
  else if 5 < si then 5
  else 0

/-- Gap-size sub-score (lines 386-390), 0-10. -/
def gapScore (gapDown : ℚ) : ℚ :=
  let gap := |gapDown|
  if 5 ≤ gap ∧ gap ≤ 8 then 10
  else if 4 ≤ gap ∧ gap ≤ 10 then 7
  else if 3 ≤ gap ∧ gap ≤ 12 then 5
  else 0

/-- Trend sub-score (lines 392-399): note the JS `data.trendScore || 50`,
so a trend score of exactly 0 is treated as 50; the lowest tier subtracts 15. -/
def trendTier (trendScore : ℚ) : ℚ :=
  let trend := if trendScore = 0 then 50 else trendScore
  if 70 ≤ trend then 15
  else if 60 ≤ trend then 12
  else if 50 ≤ trend then 10
  else if 40 ≤ trend then 5
  else if 30 ≤ trend then 0
  else -15

/-- `calculateScore` from scanner_v4.js: sum of the seven sub-scores, capped
above at 100 by `Math.min(score, 100)` (no cap below). -/
def calculateScore (d : CandidateData) : ℚ :=
  min (fillScore d.gapFillPct + daysScore d.daysSinceGap + consScore d.consolidation
    + volScore d.volumeTrend + siScore d.shortInterest + gapScore d.gapDown
    + trendTier d.trendScore) 100

/-- Option play type as emitted by `findCheapOptions`. -/
inductive OptType
  | call
  | put
deriving DecidableEq, Repr

/-- One play pushed by `findCheapOptions` (type, strike, premium, OTM %). -/
structure OptPlay where
  type : OptType
  strike : ℤ
  price : ℚ
  otm : ℚ
deriving DecidableEq, Repr

/-- The body of the `unique.forEach` in `findCheapOptions` (scanner_v4.js
lines 420-437): discard strikes more than 15% out of the money, synthesize a
premium clamped into the configured band, and classify call/put. -/
def mkPlay (price : ℚ) (strike : ℤ) : Option OptPlay :=
  let otmPct := |(strike : ℚ) - price| / price * 100
  if 15 < otmPct then none
  else
    let intrinsic := |price - (strike : ℚ)|
    let timeValue := 0.03 + otmPct / 100 * 0.05
    let optPrice := min FILTERS.optionMaxPrice (max FILTERS.optionMinPrice (intrinsic + timeValue))
    if FILTERS.optionMinPrice ≤ optPrice ∧ optPrice ≤ FILTERS.optionMaxPrice then
      some { type := if price ≤ (strike : ℚ) then OptType.call else OptType.put
             strike := strike, price := optPrice, otm := otmPct }
    else none

/-- `findCheapOptions` from scanner_v4.js: guard the price range, propose the
five near-the-money strikes, deduplicate, keep strikes in (0, 100), build
plays, return at most the first 3. -/
def findCheapOptions (price : ℚ) : List OptPlay :=
  if price = 0 ∨ 40 < price ∨ price < 1 then []
  else
    let strikes := [jsRound price, jsRound (price * 0.95), jsRound (price * 1.05),
                    jsRound (price * 0.90), jsRound (price * 1.10)]
    let unique := (jsDedup strikes).filter (fun s => decide (0 < s) && decide (s < 100))
    (unique.filterMap (mkPlay price)).take 3

/-- The per-symbol record `main` pushes into `stockData` (scanner_v4.js
lines 466-472): quote fields merged with the whole history record. -/
structure StockRec where
  symbol : String
  price : ℚ
  volume : ℚ
  avgVolume : ℚ
  gapDown : ℚ
  gapDayTime : ℕ
  daysSinceGap : ℕ
  consolidation : ℚ
  gapFillPct : ℚ
  volumeTrend : ℚ
  currentPrice : ℚ
  gapDayPrice : ℚ
  prevGapDayClose : ℚ
  trendScore : ℚ
deriving DecidableEq, Repr

/-- `StockRec` plus the reference data attached at Step 5 of `main`. -/
structure GammaRec extends StockRec where
  shortInterest : ℚ
  float : ℚ
deriving DecidableEq, Repr

/-- `GammaRec` plus the score and option plays attached at Step 6 of `main`. -/
structure ScoredRec extends GammaRec where
  score : ℚ
  cheapOptions : List OptPlay
deriving DecidableEq, Repr

/-- One iteration of the fetch loop in `main` (scanner_v4.js lines 460-473):
a symbol contributes a record only when its history fetch produced data with
`gapDown` in [-15, -3]; the JS `quote?.price || history.currentPrice` and
`quote?.volume || 0` defaults are modelled including their 0-is-falsy cases. -/
def scanStep (quote : Option Quote) (history : Option HistoryV4) (symbol : String) :
    Option StockRec :=
  match history with
  | none => none
  | some h =>
    if h.gapDown ≤ -3 ∧ -15 ≤ h.gapDown then
      some {
        symbol := symbol
        price := match quote with
          | some q => if q.price = 0 then h.currentPrice else q.price
          | none => h.currentPrice
        volume := (quote.map (·.volume)).getD 0
        avgVolume := (quote.map (·.avgVolume)).getD 0
        gapDown := h.gapDown
        gapDayTime := h.gapDayTime
        daysSinceGap := h.daysSinceGap
        consolidation := h.consolidation
        gapFillPct := h.gapFillPct
        volumeTrend := h.volumeTrend
        currentPrice := h.currentPrice
        gapDayPrice := h.gapDayPrice
        prevGapDayClose := h.prevGapDayClose
        trendScore := h.trendScore }
    else none

/-- Step 1 of `main`: run the per-symbol fetch over the universe, collecting
the records of the symbols that produced data. -/
def scanFetch (fetchQ : String → Option Quote) (fetchH : String → Option HistoryV4)
    (symbols : List String) : List StockRec :=
  symbols.filterMap (fun sym => scanStep (fetchQ sym) (fetchH sym) sym)

/-- Step 2 of `main` (lines 482-487): gap-down range and consolidation band. -/
def stage2 (stockData : List StockRec) : List StockRec :=
  stockData.filter (fun s =>
    decide (FILTERS.gapDownMin ≤ s.gapDown) && decide (s.gapDown ≤ FILTERS.gapDownMax) &&
    decide (FILTERS.consolidationMin ≤ s.consolidation) &&
    decide (s.consolidation ≤ FILTERS.consolidationMax))

/-- Step 3 of `main` (lines 492-495): gap-fill zone. -/
def stage3 (l : List StockRec) : List StockRec :=
  l.filter (fun s =>
    decide (FILTERS.gapFillMin ≤ s.gapFillPct) && decide (s.gapFillPct ≤ FILTERS.gapFillMax))

/-- Step 4 of `main` (line 500): trend-score floor. -/
def stage4 (l : List StockRec) : List StockRec :=
  l.filter (fun s => decide (FILTERS.trendMin ≤ s.trendScore))

/-- The record extension inside Step 5 of `main` (lines 504-507). -/
def addGamma (s : StockRec) : GammaRec :=
  { toStockRec := s, shortInterest := getShortInterest s.symbol, float := getFloat s.symbol }

/-- Step 5 of `main` (lines 504-513): attach reference data, then filter on
short interest, float, price and volume. -/
def stage5 (l : List StockRec) : List GammaRec :=
  (l.map addGamma).filter (fun s =>
    decide (FILTERS.shortInterestMin ≤ s.shortInterest) && decide (s.float ≤ FILTERS.floatMax) &&
    decide (s.price ≤ FILTERS.maxPrice) && decide (FILTERS.volumeMin ≤ s.volume))

/-- The fields of a survivor handed to `calculateScore` in Step 6. -/
def toCandidateData (s : GammaRec) : CandidateData :=
  { gapFillPct := s.gapFillPct, daysSinceGap := s.daysSinceGap
    consolidation := s.consolidation, volumeTrend := s.volumeTrend
    shortInterest := s.shortInterest, gapDown := s.gapDown, trendScore := s.trendScore }

/-- The record extension inside Step 6 of `main` (lines 518-521). -/
def addScore (s : GammaRec) : ScoredRec :=
  { toGammaRec := s, score := calculateScore (toCandidateData s)
    cheapOptions := findCheapOptions s.price }

/-- Step 6 of `main` (lines 518-523): score, filter on the score floor, and
sort by score descending.  The JS engine sort is stable by specification, so
it is modelled by a stable merge sort with the same comparator. -/
def stage6 (l : List GammaRec) : List ScoredRec :=
  ((l.map addScore).filter (fun s => decide (FILTERS.scoreMin ≤ s.score))).mergeSort
    (fun a b => decide (b.score ≤ a.score))

/-- The in-place series extraction of the V5 `getStockData` (part_002 lines
123-126): each `hist.reverse()` call reverses the same array again before
`map`, exactly as the JS `Array.prototype.reverse` mutation does. -/
def v5Series (hist : List Bar) : List ℚ × List ℚ × List ℚ × List ℚ :=
  let r1 := hist.reverse
  let closes := r1.map (·.close)
  let r2 := r1.reverse
  let highs := r2.map (·.high)
  let r3 := r2.reverse
  let lows := r3.map (·.low)
  let r4 := r3.reverse
  let vols := r4.map (·.volume)
  (closes, highs, lows, vols)

/-- `calculateRSI` from part_002 (lines 188-206): neutral 50 when fewer than
`period + 1` closes exist, otherwise the average-gain/average-loss form over
the trailing `period` changes. -/
def calculateRSI (closes : List ℚ) (period : ℕ) : ℚ :=
  if closes.length < period + 1 then 50
  else
    let cs := takeLast (period + 1) closes
    let changes := (cs.zip cs.tail).map (fun p => p.2 - p.1)
    let gains := (changes.filter (fun c => decide (0 < c))).sum
    let losses := -((changes.filter (fun c => !(decide (0 < c)))).sum)
    let avgGain := gains / (period : ℚ)
    let avgLoss := losses / (period : ℚ)
    if avgLoss = 0 then 100
    else 100 - 100 / (1 + avgGain / avgLoss)

/-- The gap loop of the V5 `getStockData` (part_002 lines 137-145), over the
closes with the loop index recorded as the gap date. -/
def findGapV5 (closes : List ℚ) : ℚ × Option (ℚ × ℕ) :=
  (closes.zip closes.tail).enum.foldl
    (fun st p =>
      let gap := (p.2.2 - p.2.1) / p.2.1 * 100
      if gap < st.1 then (gap, some (p.2.2, p.1 + 1)) else st)
    (0, none)

/-- The record returned by the V5 `getStockData` (part_002 lines 165-181). -/
structure V5Data where
  symbol : String
  price : ℚ
  prevClose : ℚ
  volume : ℚ
  avgVolume : ℚ
  rsi : ℚ
  ma20 : ℚ
  ma50 : ℚ
  ma200 : ℚ
  gapDown : ℚ
  gapFillPct : ℚ
  daysSinceGap : ℕ
  consolidation : ℚ
  volSpike : ℚ
  closes : List ℚ
deriving DecidableEq, Repr

/-- The `FILTERS.maxPrice` of the V5 scanner (part_002 line 65). -/
def FILTERS5maxPrice : ℚ := 50

/-- `getStockData` from part_002: single-provider quote + history (a thrown
error is modelled by `none` inputs), price ceiling $50, at least 20 bars,
then RSI, moving averages, gap analysis, consolidation over the closes, and
the volume-spike ratio against the 20-day average volume. -/
def getStockData5 (symbol : String) (quoteResp : Option TDQuote)
    (histResp : Option (List Bar)) : Option V5Data :=
  match quoteResp with
  | none => none
  | some quote =>
    if quote.status == some "error" then none
    else
      let price := quote.close
      let prevClose := quote.previous_close
      let volume := quote.volume
      let avgVolume := quote.average_volume
      if FILTERS5maxPrice < price ∨ price ≤ 0 then none
      else match histResp with
        | none => none
        | some hist =>
          if hist.length < 20 then none
          else
            let s := v5Series hist
            let closes := s.1
            let vols := s.2.2.2
            let rsi := calculateRSI closes 14
            let ma20 := (takeLast 20 closes).sum / 20
            let ma50 := if 50 ≤ closes.length then (takeLast 50 closes).sum / 50 else ma20
            let ma200 := if 200 ≤ closes.length then (takeLast 200 closes).sum / 200 else ma50
            let g := findGapV5 closes
            let currentPrice := closes.getLast?.getD 0
            let gapFilled := match g.2 with
              | some gd => (gd.1 - currentPrice) / gd.1 * 100
              | none => 0
            let gapFillPct := max 0 (min 100 gapFilled)
            let daysSinceGap := match g.2 with
              | some gd => closes.length - 1 - gd.2
              | none => 999
            let recent := takeLast 5 closes
            let high5 := jsMax recent
            let low5 := jsMin recent
            let consolidation := (high5 - low5) / low5 * 100
            let avgVol20 := (takeLast 20 vols).sum / 20
            let volSpike := volume / avgVol20
            some {
              symbol := symbol, price := price, prevClose := prevClose
              volume := volume, avgVolume := avgVolume
              rsi := rsi, ma20 := ma20, ma50 := ma50, ma200 := ma200
              gapDown := g.1, gapFillPct := gapFillPct, daysSinceGap := daysSinceGap
              consolidation := consolidation, volSpike := volSpike, closes := closes }

/-! Concrete inputs used to evaluate the embedded code and to instantiate
the theorems below. -/

/-- A five-bar series with a single -10% gap (closes 100, 90, 91, 93, 95):
the price has recovered above the gap-day close of 90. -/
def demoBars : List Bar :=
  [⟨100, 100, 100, 10, 0⟩, ⟨90, 90, 90, 10, 1⟩, ⟨91, 91, 91, 10, 2⟩,
   ⟨93, 93, 93, 10, 3⟩, ⟨95, 95, 95, 10, 4⟩]

/-- The history record `analyzeValues` produces on `demoBars`. -/
def demoHist : HistoryV4 :=
  { gapDown := -10, gapDayTime := 1, daysSinceGap := 3, consolidation := 100/9
    gapFillPct := 0, volumeTrend := 0, currentPrice := 95, gapDayPrice := 90
    prevGapDayClose := 100, trendScore := 50 }

/-- A five-bar strictly rising series (closes 10..14): no negative change. -/
def demoUp : List Bar :=
  [⟨10, 10, 10, 1, 0⟩, ⟨11, 11, 11, 1, 1⟩, ⟨12, 12, 12, 1, 2⟩,
   ⟨13, 13, 13, 1, 3⟩, ⟨14, 14, 14, 1, 4⟩]

/-- Twenty flat bars (close 10, volume 10) for the V5 scanner. -/
def demoHist20 : List Bar :=
  [⟨10, 10, 10, 10, 0⟩, ⟨10, 10, 10, 10, 1⟩, ⟨10, 10, 10, 10, 2⟩, ⟨10, 10, 10, 10, 3⟩,
   ⟨10, 10, 10, 10, 4⟩, ⟨10, 10, 10, 10, 5⟩, ⟨10, 10, 10, 10, 6⟩, ⟨10, 10, 10, 10, 7⟩,
   ⟨10, 10, 10, 10, 8⟩, ⟨10, 10, 10, 10, 9⟩, ⟨10, 10, 10, 10, 10⟩, ⟨10, 10, 10, 10, 11⟩,
   ⟨10, 10, 10, 10, 12⟩, ⟨10, 10, 10, 10, 13⟩, ⟨10, 10, 10, 10, 14⟩, ⟨10, 10, 10, 10, 15⟩,
   ⟨10, 10, 10, 10, 16⟩, ⟨10, 10, 10, 10, 17⟩, ⟨10, 10, 10, 10, 18⟩, ⟨10, 10, 10, 10, 19⟩]

/-- A successful Twelve Data quote payload at price 10, volume 20. -/
def demoQuote : TDQuote :=
  { code := none, status := none, symbol := "GME", close := 10, previous_close := 10
    openPrice := 10, high := 10, low := 10, volume := 20, average_volume := 10 }

/-- The V5 record `getStockData5` produces on `demoQuote` and `demoHist20`. -/
def demoV5 : V5Data :=
  { symbol := "GME", price := 10, prevClose := 10, volume := 20, avgVolume := 10
    rsi := 100, ma20 := 10, ma50 := 10, ma200 := 10, gapDown := 0, gapFillPct := 0
    daysSinceGap := 999, consolidation := 0, volSpike := 2
    closes := [10, 10, 10, 10, 10, 10, 10, 10, 10, 10, 10, 10, 10, 10, 10, 10, 10, 10, 10, 10] }

/-- A thirty-bar provider payload in the newest-first provider order, with
chronological volumes 1..30 (so the raw list carries volumes 30..1). -/
def demoHist30 : List Bar :=
  [⟨10, 10, 10, 30, 0⟩, ⟨10, 10, 10, 29, 1⟩, ⟨10, 10, 10, 28, 2⟩, ⟨10, 10, 10, 27, 3⟩,
   ⟨10, 10, 10, 26, 4⟩, ⟨10, 10, 10, 25, 5⟩, ⟨10, 10, 10, 24, 6⟩, ⟨10, 10, 10, 23, 7⟩,
   ⟨10, 10, 10, 22, 8⟩, ⟨10, 10, 10, 21, 9⟩, ⟨10, 10, 10, 20, 10⟩, ⟨10, 10, 10, 19, 11⟩,
   ⟨10, 10, 10, 18, 12⟩, ⟨10, 10, 10, 17, 13⟩, ⟨10, 10, 10, 16, 14⟩, ⟨10, 10, 10, 15, 15⟩,
   ⟨10, 10, 10, 14, 16⟩, ⟨10, 10, 10, 13, 17⟩, ⟨10, 10, 10, 12, 18⟩, ⟨10, 10, 10, 11, 19⟩,
   ⟨10, 10, 10, 10, 20⟩, ⟨10, 10, 10, 9, 21⟩, ⟨10, 10, 10, 8, 22⟩, ⟨10, 10, 10, 7, 23⟩,
   ⟨10, 10, 10, 6, 24⟩, ⟨10, 10, 10, 5, 25⟩, ⟨10, 10, 10, 4, 26⟩, ⟨10, 10, 10, 3, 27⟩,
   ⟨10, 10, 10, 2, 28⟩, ⟨10, 10, 10, 1, 29⟩]

/-- A candidate on which every sub-score tier is zero except the downtrend
penalty: gap fill 0, 10 days since gap, consolidation 20, volume trend -20,
short interest 0, gap size 0, trend score 10. -/
def c2Input : CandidateData := ⟨0, 10, 20, -20, 0, 0, 10⟩

/-- Evaluation of the embedded `getHistory` analysis on `demoBars`. -/
lemma analyzeValues_demoBars : analyzeValues demoBars = some demoHist := by
  norm_num [analyzeValues, demoBars, demoHist, findGap, gapStep, takeLast, jsMax, jsMin,
    jsSliceNegNeg, calculateTrendScore, List.findIdx_cons, min_def, max_def, cond_eq_if]

/-- C1, code-bug evaluation: on the series with closes 100, 90, 91, 93, 95
the current close 95 has exceeded the gap-day close 90, so per the claim the
gap-fill percentage should be 100; the code computes
`(gapDay.close - current.close) / gapDay.close * 100 = -50/9` and clamps it
to 0, reporting a recovering price as 0% filled. -/
theorem gapFill_inverted_at_demo :
    analyzeValues demoBars = some demoHist ∧
    demoHist.gapDayPrice < demoHist.currentPrice ∧
    demoHist.gapFillPct = 0 :=
  ⟨analyzeValues_demoBars, by norm_num [demoHist], by norm_num [demoHist]⟩

/-- C2, counterexample: at `c2Input` the composite score is `min (-15) 100 = -15`,
outside [0, 100], because the trend tier subtracts 15 and `Math.min(score, 100)`
only caps the score from above. -/
theorem calculateScore_out_of_range :
    ¬ (0 ≤ calculateScore c2Input ∧ calculateScore c2Input ≤ 100) := by
  have h : calculateScore c2Input = -15 := by
    norm_num [calculateScore, c2Input, fillScore, daysScore, consScore, volScore, siScore,
      gapScore, trendTier, min_def]
  rw [h]
  norm_num

/-- C2, amended: the composite score always lies in [-15, 100]; the cap at
100 holds for every input (in particular when all sub-score tiers are
simultaneously maximal), but the score is not clamped below at 0 and reaches
-15 exactly when the downtrend penalty applies with all other tiers zero. -/
theorem calculateScore_bounds (d : CandidateData) :
    -15 ≤ calculateScore d ∧ calculateScore d ≤ 100 := by
  have h1 : 0 ≤ fillScore d.gapFillPct := by
    simp only [fillScore]; split_ifs <;> norm_num
  have h2 : 0 ≤ daysScore d.daysSinceGap := by
    simp only [daysScore]; split_ifs <;> norm_num
  have h3 : 0 ≤ consScore d.consolidation := by
    simp only [consScore]; split_ifs <;> norm_num
  have h4 : 0 ≤ volScore d.volumeTrend := by
    simp only [volScore]; split_ifs <;> norm_num
  have h5 : 0 ≤ siScore d.shortInterest := by
    simp only [siScore]; split_ifs <;> norm_num
  have h6 : 0 ≤ gapScore d.gapDown := by
    simp only [gapScore]; split_ifs <;> norm_num
  have h7 : -15 ≤ trendTier d.trendScore := by
    simp only [trendTier]; split_ifs <;> norm_num
  exact ⟨le_min (by linarith) (by norm_num), min_le_right _ _⟩

/-- C5: with fewer than 15 closes the RSI computation (period 14) returns
the neutral value 50 without touching the gain/loss averages. -/
theorem rsi_short_series_neutral (closes : List ℚ) (h : closes.length < 15) :
    calculateRSI closes 14 = 50 := by
  unfold calculateRSI
  rw [if_pos (by omega : closes.length < 14 + 1)]

/-- Witness for C5 at the three-element series 1, 2, 3. -/
theorem rsi_short_series_neutral_witness : calculateRSI [1, 2, 3] 14 = 50 :=
  rsi_short_series_neutral [1, 2, 3] (by decide)

/-- C7, code-bug evaluation: on a 30-bar newest-first payload with
chronological volumes 1..30, the volume series the V5 scanner derives is
still in newest-first order (the fourth in-place `reverse()` of the same
array undoes the third), so the "20-day average volume" it computes is the
average 21/2 of the 20 oldest bars, not the average 41/2 of the 20 most
recent bars. -/
theorem v5_volume_series_misordered :
    (∀ hist : List Bar, (v5Series hist).2.2.2 = hist.map (fun b => b.volume)) ∧
    (takeLast 20 (v5Series demoHist30).2.2.2).sum / 20 = 21/2 ∧
    (takeLast 20 (demoHist30.reverse.map (fun b => b.volume))).sum / 20 = 41/2 ∧
    ¬ ((takeLast 20 (v5Series demoHist30).2.2.2).sum / 20
        = (takeLast 20 (demoHist30.reverse.map (fun b => b.volume))).sum / 20) := by
  have hgen : ∀ hist : List Bar, (v5Series hist).2.2.2 = hist.map (fun b => b.volume) := by
    intro hist
    simp [v5Series]
  have h1 : (takeLast 20 (v5Series demoHist30).2.2.2).sum / 20 = 21/2 := by
    norm_num [demoHist30, v5Series, takeLast]
  have h2 : (takeLast 20 (demoHist30.reverse.map (fun b => b.volume))).sum / 20 = 41/2 := by
    norm_num [demoHist30, takeLast]
  refine ⟨hgen, h1, h2, ?_⟩
  rw [h1, h2]
  norm_num

/-- Evaluation of the embedded V5 `getStockData` on the flat demo inputs. -/
lemma getStockData5_demo :
    getStockData5 "GME" (some demoQuote) (some demoHist20) = some demoV5 := by
  norm_num [getStockData5, demoQuote, demoHist20, demoV5, v5Series, calculateRSI, takeLast,
    findGapV5, jsMax, jsMin, min_def, max_def, FILTERS5maxPrice, List.enum, List.enumFrom]

/-- C8: whenever the scanner computes a gap-fill percentage, the clamp
`Math.max(0, Math.min(100, filled))` keeps it inside [0, 100], in both the
V4 history analysis and the V5 `getStockData`, no matter how far the
current close has moved past either boundary. -/
theorem gapFillPct_in_range :
    (∀ values h, analyzeValues values = some h → 0 ≤ h.gapFillPct ∧ h.gapFillPct ≤ 100) ∧
    (∀ sym q hist d, getStockData5 sym q hist = some d →
      0 ≤ d.gapFillPct ∧ d.gapFillPct ≤ 100) := by
  constructor
  · intro values h hv
    simp only [analyzeValues] at hv
    split at hv
    · exact absurd hv (by simp)
    · split at hv
      · exact absurd hv (by simp)
      · rw [Option.some.injEq] at hv
        subst hv
        exact ⟨le_max_left _ _, max_le (by norm_num) (min_le_left _ _)⟩
  · intro sym q hist d hv
    simp only [getStockData5] at hv
    split at hv
    · exact absurd hv (by simp)
    · split at hv
      · exact absurd hv (by simp)
      · split at hv
        · exact absurd hv (by simp)
        · split at hv
          · exact absurd hv (by simp)
          · split at hv
            · exact absurd hv (by simp)
            · rw [Option.some.injEq] at hv
              subst hv
              exact ⟨le_max_left _ _, max_le (by norm_num) (min_le_left _ _)⟩

/-- Witness for C8: the bounds instantiated at the concrete records the two
analyses produce on `demoBars` and on the flat V5 demo inputs. -/
theorem gapFillPct_in_range_witness :
    (0 ≤ demoHist.gapFillPct ∧ demoHist.gapFillPct ≤ 100) ∧
    (0 ≤ demoV5.gapFillPct ∧ demoV5.gapFillPct ≤ 100) :=
  ⟨gapFillPct_in_range.1 demoBars demoHist analyzeValues_demoBars,
   gapFillPct_in_range.2 "GME" (some demoQuote) (some demoHist20) demoV5 getStockData5_demo⟩

/-- The gap-search fold never leaves its initial state when every
consecutive change is nonnegative (no `gap < maxGap` with `maxGap = 0`). -/
lemma foldl_gapStep_eq_init (ps : List (Bar × Bar))
    (h : ∀ p ∈ ps, 0 < p.1.close ∧ p.1.close ≤ p.2.close) :
    ps.foldl gapStep (0, none) = ((0 : ℚ), (none : Option Bar)) := by
  induction ps with
  | nil => rfl
  | cons p t ih =>
    have hp := h p (List.mem_cons_self p t)
    have hg : 0 ≤ (p.2.close - p.1.close) / p.1.close * 100 :=
      mul_nonneg (div_nonneg (by linarith [hp.2]) (le_of_lt hp.1)) (by norm_num)
    have hstep : gapStep (0, none) p = (0, none) := by
      simp only [gapStep]
      rw [if_neg]
      simp only [not_lt]
      exact hg
    rw [List.foldl_cons, hstep]
    exact ih (fun q hq => h q (List.mem_cons_of_mem p hq))

/-- C10: a history whose day-over-day closing changes are all nonnegative
(positive closes) leaves `gapDay` null, so `getHistory` returns `null` even
though the fetched series is valid, and the fetch-loop step drops the
symbol. -/
theorem no_negative_change_yields_no_data (values : List Bar) (f : Option (List Bar))
    (hlen : 5 ≤ values.length)
    (hpos : ∀ b ∈ values, 0 < b.close)
    (hchg : ∀ p ∈ values.zip values.tail, 0 ≤ p.2.close - p.1.close) :
    analyzeValues values = none ∧
    getHistory (some values.reverse) f = none ∧
    ∀ q sym, scanStep q (analyzeValues values) sym = none := by
  have hfg : findGap values = (0, none) := by
    unfold findGap
    apply foldl_gapStep_eq_init
    intro p hp
    have hm := List.of_mem_zip hp
    exact ⟨hpos p.1 hm.1, by linarith [hchg p hp]⟩
  have hav : analyzeValues values = none := by
    simp only [analyzeValues, hfg]
    cases values.getLast? <;> rfl
  refine ⟨hav, ?_, ?_⟩
  · simp only [getHistory]
    rw [if_neg (by simp only [List.length_reverse]; omega), List.reverse_reverse, hav]
  · intro q sym
    rw [hav]
    rfl

/-- Witness for C10 at the strictly rising five-bar series `demoUp`. -/
theorem no_negative_change_yields_no_data_witness :
    analyzeValues demoUp = none ∧ getHistory (some demoUp.reverse) none = none := by
  have h := no_negative_change_yields_no_data demoUp none (by norm_num [demoUp])
    (by norm_num [demoUp]) (by norm_num [demoUp])
  exact ⟨h.1, h.2.1⟩

/-- C3: for a positive price, `findCheapOptions` returns at most 3 plays,
every returned play is at most 15% out of the money, its premium lies in the
configured band [0.01, 0.10], and it is a put exactly when the strike is
below the price and a call exactly when the strike is at or above it. -/
theorem findCheapOptions_spec (price : ℚ) (hp : 0 < price) :
    (findCheapOptions price).length ≤ 3 ∧
    ∀ play ∈ findCheapOptions price,
      |(play.strike : ℚ) - price| / price * 100 ≤ 15 ∧
      FILTERS.optionMinPrice ≤ play.price ∧ play.price ≤ FILTERS.optionMaxPrice ∧
      (play.type = OptType.put → (play.strike : ℚ) < price) ∧
      (play.type = OptType.call → price ≤ (play.strike : ℚ)) := by
  constructor
  · unfold findCheapOptions
    split
    · simp
    · exact le_trans (List.length_take_le _ _) (le_refl 3)
  · intro play hmem
    unfold findCheapOptions at hmem
    split at hmem
    · simp at hmem
    · have hmem2 := List.mem_of_mem_take hmem
      rw [List.mem_filterMap] at hmem2
      obtain ⟨strike, hsm, hmk⟩ := hmem2
      simp only [mkPlay] at hmk
      split at hmk
      · exact absurd hmk (by simp)
      · rename_i hotm
        split at hmk
        · rw [Option.some.injEq] at hmk
          subst hmk
          refine ⟨le_of_not_lt hotm, ?_, ?_, ?_, ?_⟩
          · exact le_min (by norm_num [FILTERS]) (le_max_left _ _)
          · exact min_le_left _ _
          · intro hput
            by_contra hnot
            push_neg at hnot
            simp only [if_pos hnot] at hput
            cases hput
          · intro hcall
            by_contra hnot
            push_neg at hnot
            simp only [if_neg (not_le.mpr hnot)] at hcall
            cases hcall
        · exact absurd hmk (by simp)

/-- Witness for C3 at price 20. -/
theorem findCheapOptions_spec_witness :
    ((0 : ℚ) < 20) ∧ (findCheapOptions 20).length ≤ 3 :=
  ⟨by norm_num, (findCheapOptions_spec 20 (by norm_num)).1⟩

/-- A quote source that always fails (both providers down). -/
def noQuoteSrc : String → Option Quote := fun _ => none

/-- A history source that always fails (both providers down). -/
def noHistSrc : String → Option HistoryV4 := fun _ => none

/-- C6: the fetch policy.  With no primary response, or a primary response
carrying an error code/status, the quote result is exactly the fallback
attempt; a clean primary response is used directly; a usable fallback
produces data and a missing one produces `none`.  The same shape holds for
histories (a thrown primary error or a short payload goes to the fallback),
and a symbol whose history fetch yields nothing is dropped by the fetch loop
without affecting the remaining symbols. -/
theorem provider_fallback_policy :
    (∀ f, getQuote none f = avQuote f) ∧
    (∀ d f, tdQuoteFails d = true → getQuote (some d) f = avQuote f) ∧
    (∀ d f, tdQuoteFails d = false → getQuote (some d) f = some (tdToQuote d)) ∧
    (∀ q, avQuote (some q) = some (avToQuote q)) ∧
    (avQuote (none : Option AVQuote) = none) ∧
    (∀ f, getHistory none f = avHistory f) ∧
    (∀ raw f, raw.length < 5 → getHistory (some raw) f = avHistory f) ∧
    (avHistory (none : Option (List Bar)) = none) ∧
    (∀ fq fh sym rest, fh sym = none →
      scanFetch fq fh (sym :: rest) = scanFetch fq fh rest) := by
  refine ⟨fun f => rfl, ?_, ?_, fun q => rfl, rfl, fun f => rfl, ?_, rfl, ?_⟩
  · intro d f h
    simp [getQuote, h]
  · intro d f h
    simp [getQuote, h]
  · intro raw f h
    simp [getHistory, h]
  · intro fq fh sym rest h
    simp [scanFetch, scanStep, h]

/-- A Twelve Data payload whose status field reports an error. -/
def errTD : TDQuote :=
  { code := none, status := some "error", symbol := "GME", close := 1, previous_close := 1
    openPrice := 1, high := 1, low := 1, volume := 1, average_volume := 1 }

/-- A valid Alpha Vantage fallback payload. -/
def okAV : AVQuote :=
  { symbol := "GME", price := 2, previousClose := 2, openPrice := 2, high := 2, low := 2
    volume := 3 }

/-- Witness for C6: an error-status primary quote falls back (and yields the
fallback data when present, nothing when absent), an empty primary history
payload falls back, and a symbol with no data is dropped from the loop. -/
theorem provider_fallback_policy_witness :
    getQuote (some errTD) (some okAV) = avQuote (some okAV) ∧
    getQuote (some errTD) none = avQuote none ∧
    getHistory (some []) none = avHistory none ∧
    scanFetch noQuoteSrc noHistSrc ["GME"] = scanFetch noQuoteSrc noHistSrc [] :=
  ⟨provider_fallback_policy.2.1 errTD (some okAV) (by decide),
   provider_fallback_policy.2.1 errTD none (by decide),
   provider_fallback_policy.2.2.2.2.2.2.1 [] none (by decide),
   provider_fallback_policy.2.2.2.2.2.2.2.2 noQuoteSrc noHistSrc "GME" [] rfl⟩

/-- The symbols carried by a list of per-symbol records. -/
def symbolsS (l : List StockRec) : List String := l.map (fun s => s.symbol)

/-- The symbols carried by a list of reference-data records. -/
def symbolsG (l : List GammaRec) : List String := l.map (fun s => s.symbol)

/-- The symbols carried by a list of scored records. -/
def symbolsZ (l : List ScoredRec) : List String := l.map (fun s => s.symbol)

/-- The cascade up to Step 3 of `main`. -/
def cascadeStage3 (sd : List StockRec) : List StockRec := stage3 (stage2 sd)

/-- The cascade up to Step 4 of `main`. -/
def cascadeStage4 (sd : List StockRec) : List StockRec := stage4 (cascadeStage3 sd)

/-- The cascade up to Step 5 of `main`. -/
def cascadeStage5 (sd : List StockRec) : List GammaRec := stage5 (cascadeStage4 sd)

/-- The cascade up to Step 6 of `main`. -/
def cascadeStage6 (sd : List StockRec) : List ScoredRec := stage6 (cascadeStage5 sd)

/-- Attaching reference data preserves the symbol of each record. -/
lemma symbolsG_map_addGamma (l : List StockRec) :
    symbolsG (l.map addGamma) = symbolsS l := by
  simp only [symbolsG, symbolsS, List.map_map]
  rfl

/-- Attaching a score preserves the symbol of each record. -/
lemma symbolsZ_map_addScore (l : List GammaRec) :
    symbolsZ (l.map addScore) = symbolsG l := by
  simp only [symbolsZ, symbolsG, List.map_map]
  rfl

/-- Step 5 only narrows the symbol list. -/
lemma stage5_symbols_sublist (l : List StockRec) :
    (symbolsG (stage5 l)).Sublist (symbolsS l) := by
  have h : (symbolsG (stage5 l)).Sublist (symbolsG (l.map addGamma)) :=
    List.Sublist.map _ (List.filter_sublist _)
  rwa [symbolsG_map_addGamma] at h

/-- The sort at Step 6 permutes the symbols of the score-filtered list. -/
lemma stage6_symbols_perm (l : List GammaRec) :
    (symbolsZ (stage6 l)).Perm
      (symbolsZ ((l.map addScore).filter (fun s => decide (FILTERS.scoreMin ≤ s.score)))) :=
  (List.mergeSort_perm _ _).map _

/-- Step 6 only narrows the symbol set. -/
lemma stage6_symbols_subset (l : List GammaRec) :
    symbolsZ (stage6 l) ⊆ symbolsG l := by
  intro a ha
  have h1 := (stage6_symbols_perm l).subset ha
  have h2 : (symbolsZ ((l.map addScore).filter
      (fun s => decide (FILTERS.scoreMin ≤ s.score)))).Sublist (symbolsZ (l.map addScore)) :=
    List.Sublist.map _ (List.filter_sublist _)
  have h3 := h2.subset h1
  rwa [symbolsZ_map_addScore] at h3

/-- Step 6 does not grow the candidate count. -/
lemma stage6_symbols_length (l : List GammaRec) :
    (symbolsZ (stage6 l)).length ≤ (symbolsG l).length := by
  rw [(stage6_symbols_perm l).length_eq]
  calc (symbolsZ ((l.map addScore).filter (fun s => decide (FILTERS.scoreMin ≤ s.score)))).length
      ≤ (symbolsZ (l.map addScore)).length :=
        (List.Sublist.map _ (List.filter_sublist _)).length_le
    _ = (symbolsG l).length := by rw [symbolsZ_map_addScore]

/-- C4: the filter cascade is monotonic on every input universe: each
stage has symbols forming a sublist (hence subset) of the previous stage,
the candidate count is non-increasing at every stage, and a symbol absent
after stage k stays absent from the output of every later stage. -/
theorem filter_cascade_monotonic (sd : List StockRec) :
    ((symbolsS (stage2 sd)).Sublist (symbolsS sd) ∧
     (symbolsS (cascadeStage3 sd)).Sublist (symbolsS (stage2 sd)) ∧
     (symbolsS (cascadeStage4 sd)).Sublist (symbolsS (cascadeStage3 sd)) ∧
     (symbolsG (cascadeStage5 sd)).Sublist (symbolsS (cascadeStage4 sd)) ∧
     symbolsZ (cascadeStage6 sd) ⊆ symbolsG (cascadeStage5 sd)) ∧
    ((symbolsS (stage2 sd)).length ≤ (symbolsS sd).length ∧
     (symbolsS (cascadeStage3 sd)).length ≤ (symbolsS (stage2 sd)).length ∧
     (symbolsS (cascadeStage4 sd)).length ≤ (symbolsS (cascadeStage3 sd)).length ∧
     (symbolsG (cascadeStage5 sd)).length ≤ (symbolsS (cascadeStage4 sd)).length ∧
     (symbolsZ (cascadeStage6 sd)).length ≤ (symbolsG (cascadeStage5 sd)).length) ∧
    (∀ sym, sym ∉ symbolsS (stage2 sd) →
      sym ∉ symbolsS (cascadeStage3 sd) ∧ sym ∉ symbolsS (cascadeStage4 sd) ∧
      sym ∉ symbolsG (cascadeStage5 sd) ∧ sym ∉ symbolsZ (cascadeStage6 sd)) ∧
    (∀ sym, sym ∉ symbolsS (cascadeStage3 sd) →
      sym ∉ symbolsS (cascadeStage4 sd) ∧ sym ∉ symbolsG (cascadeStage5 sd) ∧
      sym ∉ symbolsZ (cascadeStage6 sd)) ∧
    (∀ sym, sym ∉ symbolsS (cascadeStage4 sd) →
      sym ∉ symbolsG (cascadeStage5 sd) ∧ sym ∉ symbolsZ (cascadeStage6 sd)) ∧
    (∀ sym, sym ∉ symbolsG (cascadeStage5 sd) → sym ∉ symbolsZ (cascadeStage6 sd)) := by
  have h2 : (symbolsS (stage2 sd)).Sublist (symbolsS sd) :=
    List.Sublist.map _ (List.filter_sublist _)
  have h3 : (symbolsS (cascadeStage3 sd)).Sublist (symbolsS (stage2 sd)) :=
    List.Sublist.map _ (List.filter_sublist _)
  have h4 : (symbolsS (cascadeStage4 sd)).Sublist (symbolsS (cascadeStage3 sd)) :=
    List.Sublist.map _ (List.filter_sublist _)
  have h5 : (symbolsG (cascadeStage5 sd)).Sublist (symbolsS (cascadeStage4 sd)) :=
    stage5_symbols_sublist _
  have h6 : symbolsZ (cascadeStage6 sd) ⊆ symbolsG (cascadeStage5 sd) :=
    stage6_symbols_subset _
  have s32 := h3.subset
  have s43 := h4.subset
  have s54 := h5.subset
  refine ⟨⟨h2, h3, h4, h5, h6⟩,
    ⟨h2.length_le, h3.length_le, h4.length_le, h5.length_le, stage6_symbols_length _⟩,
    ?_, ?_, ?_, ?_⟩
  · intro sym hn
    refine ⟨fun hm => hn (s32 hm), fun hm => hn (s32 (s43 hm)),
      fun hm => hn (s32 (s43 (s54 hm))), fun hm => hn (s32 (s43 (s54 (h6 hm))))⟩
  · intro sym hn
    refine ⟨fun hm => hn (s43 hm), fun hm => hn (s43 (s54 hm)),
      fun hm => hn (s43 (s54 (h6 hm)))⟩
  · intro sym hn
    exact ⟨fun hm => hn (s54 hm), fun hm => hn (s54 (h6 hm))⟩
  · intro sym hn
    exact fun hm => hn (h6 hm)

/-- A record that fails Step 2 (no gap down), for the cascade witness. -/
def demoStock : StockRec :=
  { symbol := "AAPL", price := 100, volume := 0, avgVolume := 0, gapDown := 0
    gapDayTime := 0, daysSinceGap := 0, consolidation := 0, gapFillPct := 0
    volumeTrend := 0, currentPrice := 100, gapDayPrice := 100, prevGapDayClose := 100
    trendScore := 50 }

/-- Witness for C4: a symbol removed at Step 2 is absent from the outputs of
Step 3 and of the final stage. -/
theorem filter_cascade_monotonic_witness :
    "AAPL" ∉ symbolsS (cascadeStage3 [demoStock]) ∧
    "AAPL" ∉ symbolsZ (cascadeStage6 [demoStock]) := by
  have h := (filter_cascade_monotonic [demoStock]).2.2.1 "AAPL" (by decide)
  exact ⟨h.1, h.2.2.2⟩

/-- C9: the emitted list is sorted by score descending, and the sort is
stable: any two score-tied records that appear in fetch order in the
score-filtered input appear in that same order in the output. -/
theorem results_sorted_stable (l : List GammaRec) :
    (stage6 l).Pairwise (fun a b => b.score ≤ a.score) ∧
    (∀ a b : ScoredRec, a.score = b.score →
      [a, b].Sublist ((l.map addScore).filter (fun s => decide (FILTERS.scoreMin ≤ s.score))) →
      [a, b].Sublist (stage6 l)) := by
  have htrans : ∀ (a b c : ScoredRec), (decide (b.score ≤ a.score)) →
      (decide (c.score ≤ b.score)) → (decide (c.score ≤ a.score)) := by
    intro a b c hab hbc
    simp only [decide_eq_true_eq] at hab hbc ⊢
    exact le_trans hbc hab
  have htotal : ∀ (a b : ScoredRec),
      (decide (b.score ≤ a.score)) || (decide (a.score ≤ b.score)) := by
    intro a b
    simp only [Bool.or_eq_true, decide_eq_true_eq]
    exact le_total _ _
  constructor
  · have hs := List.sorted_mergeSort htrans htotal
      ((l.map addScore).filter (fun s => decide (FILTERS.scoreMin ≤ s.score)))
    exact hs.imp (fun h => by simpa using h)
  · intro a b heq hsub
    unfold stage6
    apply List.sublist_mergeSort htrans htotal
    · simp only [List.pairwise_cons, List.mem_singleton, forall_eq, decide_eq_true_eq]
      exact ⟨le_of_eq heq.symm, by simp, List.Pairwise.nil⟩
    · exact hsub

/-- A record that scores the maximal 100 and passes the score floor. -/
def demoStockHot : StockRec :=
  { symbol := "GME", price := 10, volume := 2000000, avgVolume := 2000000, gapDown := -6
    gapDayTime := 1, daysSinceGap := 1, consolidation := 4, gapFillPct := 60
    volumeTrend := 60, currentPrice := 10, gapDayPrice := 9, prevGapDayClose := 10
    trendScore := 80 }

/-- A maximal-score candidate fetched first. -/
def demoG1 : GammaRec := { toStockRec := demoStockHot, shortInterest := 40, float := 1000 }

/-- A second candidate with the same score, fetched after `demoG1`. -/
def demoG2 : GammaRec :=
  { toStockRec := { demoStockHot with symbol := "AMC" }, shortInterest := 40, float := 1000 }

/-- Witness for C9: two score-tied candidates keep their fetch order in the
emitted list. -/
theorem results_sorted_stable_witness :
    [addScore demoG1, addScore demoG2].Sublist (stage6 [demoG1, demoG2]) := by
  have h100a : (addScore demoG1).score = 100 := by
    norm_num [addScore, demoG1, demoStockHot, toCandidateData, calculateScore,
      fillScore, daysScore, consScore, volScore, siScore, gapScore, trendTier, min_def]
  have h100b : (addScore demoG2).score = 100 := by
    norm_num [addScore, demoG2, demoStockHot, toCandidateData, calculateScore,
      fillScore, daysScore, consScore, volScore, siScore, gapScore, trendTier, min_def]
  have he : (([demoG1, demoG2].map addScore).filter
      (fun s => decide (FILTERS.scoreMin ≤ s.score))) = [addScore demoG1, addScore demoG2] := by
    simp only [List.map_cons, List.map_nil, List.filter_cons, List.filter_nil, h100a, h100b]
    norm_num [FILTERS]
  exact (results_sorted_stable [demoG1, demoG2]).2 (addScore demoG1) (addScore demoG2)
    (h100a.trans h100b.symm) (he ▸ List.Sublist.refl _)

end GammaScanner
